import Mathlib

/-!
# Shallow embedding of the SOL validator downtime leaderboard page

The page (Next.js, `app/page.tsx`) consists of three pieces:

* `getData` — fetches a fixed endpoint; throws `Error("Failed to fetch data")`
  on a non-ok HTTP status, otherwise returns `response.json()`;
* `formatDowntime` — formats a minute count as `"{h}h {m}m"` / `"{m}m"`,
  with `hours = Math.floor(minutes / 60)` and `mins = Math.round(minutes % 60)`;
* `Home` — wraps `getData` in a try/catch, rendering an error `<div>` when the
  catch fired (or the parsed payload is null/absent), and the leaderboard
  table otherwise.

JavaScript numbers are modelled as rationals (`ℚ`); `Math.floor`, `Math.round`
(half toward positive infinity) and the `%` operator (truncated remainder) are
modelled explicitly.  JSX output is modelled as an `Html` tree; a thrown
JavaScript value is either an `Error` object carrying a message or some
non-`Error` value.
-/

namespace Leaderboard

/-- One row of remote data (`interface Validator`).  `website` is
`string | null`; `minutes` is a JS number, possibly fractional. -/
structure Validator where
  name : String
  website : Option String
  incidents : Int
  minutes : ℚ

/-- The `metadata` object of the payload. -/
structure Metadata where
  total_validators : Int
  time_window : String
  as_of : String

/-- The top-level payload (`interface ApiResponse`). -/
structure ApiResponse where
  data : List Validator
  metadata : Metadata

/-- A thrown JavaScript value, as discriminated by `err instanceof Error`. -/
inductive JsThrown where
  | errorObj (message : String)
  | other

/-- The part of a `fetch` response the page looks at: the `ok` flag and the
result of `response.json()` — either a thrown parse failure, or a parsed
value (`none` encodes a JSON `null` body, which the page treats as missing
data via `!data`). -/
structure Response where
  ok : Bool
  json : Except JsThrown (Option ApiResponse)

/-- JS `Math.trunc` on rationals: round toward zero. -/
def jsTrunc (q : ℚ) : Int :=
  if 0 ≤ q then q.floor else q.ceil

/-- The JS `%` operator: truncated remainder, `a - b * Math.trunc(a / b)`. -/
def jsRem (a b : ℚ) : ℚ :=
  a - b * (jsTrunc (a / b) : ℚ)

/-- JS `Math.round`: round half toward positive infinity. -/
def jsRound (q : ℚ) : Int :=
  (q + 1 / 2).floor

/-- `formatDowntime` from the source:
`hours = Math.floor(minutes / 60)`, `mins = Math.round(minutes % 60)`,
rendered as `"{hours}h {mins}m"` when `hours > 0`, else `"{mins}m"`. -/
def formatDowntime (minutes : ℚ) : String :=
  let hours : Int := (minutes / 60).floor
  let mins : Int := jsRound (jsRem minutes 60)
  if hours > 0 then
    toString hours ++ "h " ++ toString mins ++ "m"
  else
    toString mins ++ "m"

/-- `getData` from the source: throw `Error("Failed to fetch data")` when the
response is not ok, otherwise return whatever `response.json()` produced. -/
def getData (r : Response) : Except JsThrown (Option ApiResponse) :=
  if !r.ok then Except.error (JsThrown.errorObj "Failed to fetch data")
  else r.json

/-- Rendered JSX, as a tree of elements (tag, attributes, children) and text
nodes. -/
inductive Html where
  | elem (tag : String) (attrs : List (String × String)) (children : List Html)
  | text (s : String)

/-- The children of a node (a text node has none). -/
def Html.kids : Html → List Html
  | .elem _ _ cs => cs
  | .text _ => []

/-- Fuel-bounded search for an element with the given tag anywhere in the
tree.  The fuel only needs to exceed the tree's depth; every tree built by
the renderer has depth below 12. -/
def hasTag : Nat → String → Html → Bool
  | 0, _, _ => false
  | _ + 1, _, .text _ => false
  | n + 1, t, .elem tag _ cs => tag == t || cs.any (hasTag n t)

/-- Fuel-bounded list of all text-node contents, in document order. -/
def textsIn : Nat → Html → List String
  | 0, _ => []
  | _ + 1, .text s => [s]
  | n + 1, .elem _ _ cs => (cs.map (textsIn n)).flatten

/-- The message a caught value produces through
`err instanceof Error ? err.message : 'An error occurred'`. -/
def errMessage : JsThrown → String
  | .errorObj m => m
  | .other => "An error occurred"

/-- JS `||` on a string and a fallback: empty strings are falsy. -/
def jsOrString (s fallback : String) : String :=
  if s = "" then fallback else s

/-- The string displayed in the error state for a thrown value `e`: the catch
sets `error` to `errMessage e`; the JSX shows `error || 'No data available'`
(an empty message is falsy, so it falls back — the branch is still reached
because `data` was never assigned). -/
def errorDisplay (e : JsThrown) : String :=
  jsOrString (errMessage e) "No data available"

/-- The error-state markup:
`<div class="container"><div class="error">Error loading data: {msg}</div></div>`. -/
def errorView (msg : String) : Html :=
  .elem "div" [("className", "container")]
    [.elem "div" [("className", "error")]
      [.text "Error loading data: ", .text msg]]

/-- The website cell: a link when `validator.website` is truthy (non-null and
non-empty), else the `N/A` placeholder span. -/
def websiteCell : Option String → Html
  | some w =>
    if w != "" then
      .elem "a"
        [("href", w), ("target", "_blank"), ("rel", "noopener noreferrer"),
          ("className", "website-link")]
        [.text w]
    else
      .elem "span" [("className", "no-website")] [.text "N/A"]
  | none => .elem "span" [("className", "no-website")] [.text "N/A"]

/-- One `<tr>` of the body, for the validator at 0-based position `index`. -/
def validatorRow (index : Nat) (v : Validator) : Html :=
  .elem "tr" [("key", toString index)]
    [.elem "td" [("className", "rank")] [.text (toString (index + 1))],
      .elem "td" [("className", "validator-name")] [.text v.name],
      .elem "td" [] [websiteCell v.website],
      .elem "td" [("className", "downtime")] [.text (formatDowntime v.minutes)],
      .elem "td" [("className", "incidents")] [.text (toString v.incidents)]]

/-- `data.data.map((validator, index) => ...)`: one row per validator, in
order, with `index` counting up from `k`. -/
def rowsFrom (k : Nat) : List Validator → List Html
  | [] => []
  | v :: vs => validatorRow k v :: rowsFrom (k + 1) vs

/-- One metadata header item: label span plus value span. -/
def metadataItem (label value : String) : Html :=
  .elem "div" [("className", "metadata-item")]
    [.elem "span" [("className", "metadata-label")] [.text label],
      .elem "span" [("className", "metadata-value")] [.text value]]

/-- The page header: title plus the three metadata items, the two string
fields verbatim and the count through number-to-string conversion. -/
def headerView (m : Metadata) : Html :=
  .elem "header" []
    [.elem "h1" [] [.text "SOL Validator Downtime Leaderboard"],
      .elem "div" [("className", "metadata")]
        [metadataItem "Total Validators" (toString m.total_validators),
          metadataItem "Time Window" m.time_window,
          metadataItem "Last Updated" m.as_of]]

/-- The leaderboard table: fixed column headers and one body row per
validator. -/
def tableView (validators : List Validator) : Html :=
  .elem "table" []
    [.elem "thead" []
      [.elem "tr" []
        [.elem "th" [] [.text "#"],
          .elem "th" [] [.text "Validator Name"],
          .elem "th" [] [.text "Website"],
          .elem "th" [] [.text "Downtime"],
          .elem "th" [] [.text "Incidents"]]],
      .elem "tbody" [] (rowsFrom 0 validators)]

/-- The success-state markup: header, table container, refresh note. -/
def successView (resp : ApiResponse) : Html :=
  .elem "div" [("className", "container")]
    [headerView resp.metadata,
      .elem "div" [("className", "table-container")] [tableView resp.data],
      .elem "div" [("className", "refresh-info")]
        [.text "Data is updated at build time. Rebuilds happen automatically on each push to main branch."]]

/-- What `Home` renders for each outcome of `await getData()` inside the
try/catch.  A thrown value sets `error` (leaving `data` null, so the
`error || !data` guard fires even when the message is the empty string); a
parsed `null` leaves both unset and also fires the guard; a parsed payload
renders the success view. -/
def renderOutcome : Except JsThrown (Option ApiResponse) → Html
  | .error e => errorView (errorDisplay e)
  | .ok none => errorView "No data available"
  | .ok (some d) => successView d

/-- The page component: run `getData` under try/catch and render. -/
def Home (r : Response) : Html :=
  renderOutcome (getData r)

/-- The downtime formatter as the specification words it: hours are the floor
of minutes divided by 60; the minutes component is the remainder of minutes
modulo 60 rounded to the nearest integer (half up); the hours component is
omitted entirely when it is zero.  Stated separately from `formatDowntime`
so the two can be compared. -/
def formatDowntimeSpec (minutes : ℚ) : String :=
  if (minutes / 60).floor > 0 then
    toString (minutes / 60).floor ++ "h "
      ++ toString (jsRound (jsRem minutes 60)) ++ "m"
  else
    toString (jsRound (jsRem minutes 60)) ++ "m"

/-- A response with a non-ok HTTP status. -/
def badResponse : Response :=
  ⟨false, Except.ok none⟩

/-- Another response with a non-ok HTTP status, differing from `badResponse`
in its (never consulted) body. -/
def badResponseB : Response :=
  ⟨false, Except.error JsThrown.other⟩

/-- An ok response whose body parsed to JSON `null`. -/
def okNullResponse : Response :=
  ⟨true, Except.ok none⟩

/-- An ok response whose body failed to parse as JSON: `response.json()`
threw a `SyntaxError` (an `Error` instance). -/
def malformedJsonResponse : Response :=
  ⟨true, Except.error (JsThrown.errorObj "Unexpected end of JSON input")⟩

/-- An ok response whose body parse threw a non-`Error` value. -/
def malformedJsonResponseB : Response :=
  ⟨true, Except.error JsThrown.other⟩

/-- A payload with no validators. -/
def emptyPayload : ApiResponse :=
  ⟨[], ⟨3, "30 days", "2025-01-01T00:00:00Z"⟩⟩

/-- An ok response carrying `emptyPayload`. -/
def emptyOkResponse : Response :=
  ⟨true, Except.ok (some emptyPayload)⟩

/-- A validator with a website. -/
def sampleValidator : Validator :=
  ⟨"Alice", some "https://alice.example", 2, 120⟩

/-- A validator with `website = null`. -/
def naValidator : Validator :=
  ⟨"Bob", none, 0, 0⟩

/-- A validator whose website is present but the empty string. -/
def emptyWebValidator : Validator :=
  ⟨"Carol", some "", 1, 61⟩

/-- A payload with one ordinary validator. -/
def samplePayload : ApiResponse :=
  ⟨[sampleValidator], ⟨1, "30 days", "2025-01-01T00:00:00Z"⟩⟩

/-- An ok response carrying `samplePayload`. -/
def sampleOkResponse : Response :=
  ⟨true, Except.ok (some samplePayload)⟩

/-- A payload whose only validator has `website = null`. -/
def naPayload : ApiResponse :=
  ⟨[naValidator], ⟨1, "30 days", "2025-01-01T00:00:00Z"⟩⟩

/-- An ok response carrying `naPayload`. -/
def naOkResponse : Response :=
  ⟨true, Except.ok (some naPayload)⟩

/-- A payload whose only validator has an empty-string website. -/
def emptyWebPayload : ApiResponse :=
  ⟨[emptyWebValidator], ⟨1, "30 days", "2025-01-01T00:00:00Z"⟩⟩

/-- An ok response carrying `emptyWebPayload`. -/
def emptyWebOkResponse : Response :=
  ⟨true, Except.ok (some emptyWebPayload)⟩

/-! ## Helper lemmas -/

/-- Bridge from the executable `Rat.floor` to the order-theoretic `⌊⌋`. -/
lemma ratFloor_eq (q : ℚ) : q.floor = ⌊q⌋ :=
  (Rat.floor_def' q).trans Rat.floor_def.symm

/-- A non-negative integer prints like the corresponding natural number. -/
lemma toString_toNat (z : Int) (hz : 0 ≤ z) : toString z = toString z.toNat := by
  obtain ⟨n, rfl⟩ := Int.eq_ofNat_of_zero_le hz
  rfl

/-- `rowsFrom` produces one row per validator. -/
lemma rowsFrom_length (k : Nat) (l : List Validator) :
    (rowsFrom k l).length = l.length := by
  induction l generalizing k with
  | nil => rfl
  | cons v vs ih => simp [rowsFrom, ih]

/-- The `i`-th row produced by `rowsFrom k` is the row of the `i`-th
validator, carrying index `k + i`. -/
lemma rowsFrom_get (l : List Validator) (k i : Nat) (h : i < l.length)
    (hr : i < (rowsFrom k l).length) :
    (rowsFrom k l).get ⟨i, hr⟩ = validatorRow (k + i) (l.get ⟨i, h⟩) := by
  induction l generalizing k i with
  | nil => exact absurd h (Nat.not_lt_zero i)
  | cons v vs ih =>
    cases i with
    | zero => rfl
    | succ j =>
      have hj : j < vs.length := Nat.lt_of_succ_lt_succ h
      have hjr : j < (rowsFrom (k + 1) vs).length := by
        rw [rowsFrom_length]; exact hj
      have step : (rowsFrom k (v :: vs)).get ⟨j + 1, hr⟩
          = (rowsFrom (k + 1) vs).get ⟨j, hjr⟩ := rfl
      rw [step, ih (k + 1) j hj hjr]
      have : k + 1 + j = k + (j + 1) := by omega
      rw [this]
      rfl

/-! ## Claims -/

/-- C1: for every minutes input, `formatDowntime` computes hours as the floor
of minutes divided by 60 and the minutes component as the remainder of
minutes modulo 60 rounded to the nearest integer, returning `"{h}h {m}m"`
when hours > 0 and `"{m}m"` otherwise; in particular
`formatDowntime 0 = "0m"`, `formatDowntime 125 = "2h 5m"`, and
`formatDowntime 59.6 = "60m"` with no re-carry of the rounded 60 minutes
into the hours component. -/
theorem formatDowntime_follows_spec :
    (∀ m : ℚ, formatDowntime m = formatDowntimeSpec m) ∧
    formatDowntime 0 = "0m" ∧
    formatDowntime 125 = "2h 5m" ∧
    formatDowntime (596 / 10) = "60m" := by
  refine ⟨fun m => rfl, ?_, ?_, ?_⟩ <;>
  · simp only [formatDowntime, jsRound, jsRem, jsTrunc, ratFloor_eq]
    norm_num
    rfl

/-- C2: for every non-negative minutes input, the string returned by
`formatDowntime` contains no negative number — both printed components are
natural numbers — and it matches the pattern `"{h}h {m}m"` exactly when
minutes ≥ 60 and the pattern `"{m}m"` exactly when minutes < 60. -/
theorem formatDowntime_nonneg_pattern (m : ℚ) (hm : 0 ≤ m) :
    (60 ≤ m → ∃ hrs mins : Nat, 0 < hrs ∧
      formatDowntime m = toString hrs ++ "h " ++ toString mins ++ "m") ∧
    (m < 60 → ∃ mins : Nat, formatDowntime m = toString mins ++ "m") := by
  have h60 : (0:ℚ) < 60 := by norm_num
  have hq : 0 ≤ m / 60 := div_nonneg hm (le_of_lt h60)
  have htr : jsTrunc (m / 60) = ⌊m / 60⌋ := by
    rw [jsTrunc, if_pos hq, ratFloor_eq]
  have hremEq : jsRem m 60 = m - 60 * (⌊m / 60⌋ : ℚ) := by
    rw [jsRem, htr]
  have hrem0 : 0 ≤ jsRem m 60 := by
    rw [hremEq]
    have hfl : ((⌊m / 60⌋ : Int) : ℚ) ≤ m / 60 := Int.floor_le _
    have hmul : (60:ℚ) * (⌊m / 60⌋ : ℚ) ≤ 60 * (m / 60) :=
      mul_le_mul_of_nonneg_left hfl (le_of_lt h60)
    have hcan : (60:ℚ) * (m / 60) = m := by field_simp
    linarith
  have hmins0 : 0 ≤ jsRound (jsRem m 60) := by
    rw [jsRound, ratFloor_eq]
    exact Int.le_floor.mpr (by push_cast; linarith)
  constructor
  · intro h
    have hone : (1:ℚ) ≤ m / 60 := (one_le_div h60).mpr h
    have hpos : 0 < ⌊m / 60⌋ := Int.le_floor.mpr (by exact_mod_cast hone)
    refine ⟨(⌊m / 60⌋).toNat, (jsRound (jsRem m 60)).toNat, by omega, ?_⟩
    simp only [formatDowntime, ratFloor_eq]
    rw [if_pos hpos, toString_toNat _ (le_of_lt hpos), toString_toNat _ hmins0]
  · intro h
    have hlt : m / 60 < 1 := (div_lt_one h60).mpr h
    have hfl : ⌊m / 60⌋ < 1 := Int.floor_lt.mpr (by exact_mod_cast hlt)
    refine ⟨(jsRound (jsRem m 60)).toNat, ?_⟩
    simp only [formatDowntime, ratFloor_eq]
    rw [if_neg (by omega : ¬ ⌊m / 60⌋ > 0), toString_toNat _ hmins0]

/-- Witness for C2 at minutes = 125. -/
theorem formatDowntime_nonneg_pattern_witness :
    (60 ≤ (125:ℚ) → ∃ hrs mins : Nat, 0 < hrs ∧
      formatDowntime 125 = toString hrs ++ "h " ++ toString mins ++ "m") ∧
    ((125:ℚ) < 60 → ∃ mins : Nat, formatDowntime 125 = toString mins ++ "m") :=
  formatDowntime_nonneg_pattern 125 (by norm_num)

/-- C3: `getData` fails with its generic "Failed to fetch data" error exactly
when the response status is not ok, and that is its only error of its own:
on an ok status it returns whatever `response.json()` produced, raising no
error of its own. -/
theorem getData_fails_exactly_on_bad_status (r : Response) :
    (r.ok = false →
      getData r = Except.error (JsThrown.errorObj "Failed to fetch data")) ∧
    (r.ok = true → getData r = r.json) := by
  constructor <;> intro h <;> simp [getData, h]

/-- Witness for C3: one non-ok response, one ok response. -/
theorem getData_fails_exactly_on_bad_status_witness :
    getData badResponse = Except.error (JsThrown.errorObj "Failed to fetch data") ∧
    getData okNullResponse = okNullResponse.json :=
  ⟨(getData_fails_exactly_on_bad_status badResponse).1 rfl,
    (getData_fails_exactly_on_bad_status okNullResponse).2 rfl⟩

/-- C9: the render pass is deterministic — any two invocations whose
retrieval outcomes are identical produce identical output; no hidden input
beyond the retrieval outcome influences the page. -/
theorem render_deterministic (r₁ r₂ : Response)
    (h : getData r₁ = getData r₂) : Home r₁ = Home r₂ := by
  unfold Home
  rw [h]

/-- Witness for C9: two distinct responses with the same retrieval outcome
render the same page. -/
theorem render_deterministic_witness : Home badResponse = Home badResponseB :=
  render_deterministic badResponse badResponseB rfl

/-- C4 counterexample: on an ok response whose body fails to parse as JSON,
the parse failure does NOT propagate out of the retrieval-and-render pass —
the top-level try/catch of `Home` catches it and converts it into the
rendered Error state, whose text includes the parse error's message. -/
theorem malformed_json_caught_counterexample :
    Home malformedJsonResponse = errorView "Unexpected end of JSON input" ∧
    textsIn 12 (Home malformedJsonResponse) =
      ["Error loading data: ", "Unexpected end of JSON input"] :=
  ⟨rfl, rfl⟩

/-- C4 as amended: when the response status is ok but the body fails to
parse, the thrown parse failure is caught by the render pass's try/catch and
converted into the Error state, rendered with the failure's display
message. -/
theorem malformed_json_renders_error_state (r : Response) (e : JsThrown)
    (hok : r.ok = true) (hjson : r.json = Except.error e) :
    Home r = errorView (errorDisplay e) := by
  simp [Home, getData, hok, hjson, renderOutcome]

/-- Witness for the amended C4, at a parse failure throwing a non-`Error`
value. -/
theorem malformed_json_renders_error_state_witness :
    Home malformedJsonResponseB = errorView (errorDisplay JsThrown.other) :=
  malformed_json_renders_error_state malformedJsonResponseB JsThrown.other rfl rfl

/-- C5: every failure of retrieval is caught at the top level of the render
pass and produces the Error state: the page is the single error view, whose
displayed message is non-empty, equals the failure's own message whenever it
carries a non-empty one, and contains no table markup. -/
theorem retrieval_failure_renders_error (r : Response) (e : JsThrown)
    (h : getData r = Except.error e) :
    Home r = errorView (errorDisplay e) ∧
    errorDisplay e ≠ "" ∧
    hasTag 12 "table" (Home r) = false ∧
    (∀ msg, e = JsThrown.errorObj msg → msg ≠ "" → errorDisplay e = msg) := by
  have hh : Home r = errorView (errorDisplay e) := by
    unfold Home
    rw [h]
    rfl
  refine ⟨hh, ?_, ?_, ?_⟩
  · cases e with
    | errorObj msg =>
      simp only [errorDisplay, errMessage, jsOrString]
      split
      · decide
      · assumption
    | other => decide
  · rw [hh]
    rfl
  · intro msg hmsg hne
    subst hmsg
    simp [errorDisplay, errMessage, jsOrString, hne]

/-- Witness for C5 at a non-ok HTTP response. -/
theorem retrieval_failure_renders_error_witness :
    Home badResponse =
      errorView (errorDisplay (JsThrown.errorObj "Failed to fetch data")) ∧
    errorDisplay (JsThrown.errorObj "Failed to fetch data") ≠ "" ∧
    hasTag 12 "table" (Home badResponse) = false ∧
    (∀ msg, JsThrown.errorObj "Failed to fetch data" = JsThrown.errorObj msg →
      msg ≠ "" → errorDisplay (JsThrown.errorObj "Failed to fetch data") = msg) :=
  retrieval_failure_renders_error badResponse
    (JsThrown.errorObj "Failed to fetch data") rfl

/-- C6: a successful response with an empty data sequence renders the
Success state, not the Error state: the table is present with zero body
rows, and the header shows `total_validators`, `time_window` and `as_of`
verbatim. -/
theorem empty_data_renders_empty_table (r : Response) (d : ApiResponse)
    (hok : r.ok = true) (hjson : r.json = Except.ok (some d))
    (hdata : d.data = []) :
    Home r = successView d ∧
    rowsFrom 0 d.data = [] ∧
    hasTag 12 "table" (Home r) = true ∧
    textsIn 12 (Home r) =
      ["SOL Validator Downtime Leaderboard",
        "Total Validators", toString d.metadata.total_validators,
        "Time Window", d.metadata.time_window,
        "Last Updated", d.metadata.as_of,
        "#", "Validator Name", "Website", "Downtime", "Incidents",
        "Data is updated at build time. Rebuilds happen automatically on each push to main branch."] := by
  obtain ⟨ddata, tv, tw, ao⟩ := d
  dsimp only at hdata
  subst hdata
  have hh : Home r = successView ⟨[], tv, tw, ao⟩ := by
    simp [Home, getData, hok, hjson, renderOutcome]
  exact ⟨hh, rfl, by rw [hh]; rfl, by rw [hh]; rfl⟩

/-- Witness for C6 at a concrete empty payload. -/
theorem empty_data_renders_empty_table_witness :
    Home emptyOkResponse = successView emptyPayload ∧
    rowsFrom 0 emptyPayload.data = [] ∧
    hasTag 12 "table" (Home emptyOkResponse) = true ∧
    textsIn 12 (Home emptyOkResponse) =
      ["SOL Validator Downtime Leaderboard",
        "Total Validators", toString emptyPayload.metadata.total_validators,
        "Time Window", emptyPayload.metadata.time_window,
        "Last Updated", emptyPayload.metadata.as_of,
        "#", "Validator Name", "Website", "Downtime", "Incidents",
        "Data is updated at build time. Rebuilds happen automatically on each push to main branch."] :=
  empty_data_renders_empty_table emptyOkResponse emptyPayload rfl rfl rfl

/-- C7: on a successful response the table has exactly one body row per
validator, in the order received, and every row's rank cell is the
validator's 1-based position, independent of the validator's fields (no
re-sorting, pagination, or filtering). -/
theorem rank_equals_position (r : Response) (d : ApiResponse)
    (hok : r.ok = true) (hjson : r.json = Except.ok (some d)) :
    Home r = successView d ∧
    (rowsFrom 0 d.data).length = d.data.length ∧
    (∀ i (h : i < d.data.length) (hr : i < (rowsFrom 0 d.data).length),
      (rowsFrom 0 d.data).get ⟨i, hr⟩ = validatorRow i (d.data.get ⟨i, h⟩)) ∧
    (∀ (i : Nat) (v : Validator),
      (validatorRow i v).kids.head? =
        some (.elem "td" [("className", "rank")] [.text (toString (i + 1))])) := by
  refine ⟨by simp [Home, getData, hok, hjson, renderOutcome],
    rowsFrom_length 0 d.data, ?_, fun i v => rfl⟩
  intro i h hr
  have hrw := rowsFrom_get d.data 0 i h hr
  rwa [Nat.zero_add] at hrw

/-- Witness for C7 at a one-validator payload. -/
theorem rank_equals_position_witness :
    Home sampleOkResponse = successView samplePayload ∧
    (rowsFrom 0 samplePayload.data).length = samplePayload.data.length ∧
    (∀ i (h : i < samplePayload.data.length)
      (hr : i < (rowsFrom 0 samplePayload.data).length),
      (rowsFrom 0 samplePayload.data).get ⟨i, hr⟩ =
        validatorRow i (samplePayload.data.get ⟨i, h⟩)) ∧
    (∀ (i : Nat) (v : Validator),
      (validatorRow i v).kids.head? =
        some (.elem "td" [("className", "rank")] [.text (toString (i + 1))])) :=
  rank_equals_position sampleOkResponse samplePayload rfl rfl

/-- C8: on a successful response, a validator whose `website` is null gets
the non-link `N/A` placeholder span as its website cell — not an anchor
element. -/
theorem null_website_renders_na (r : Response) (d : ApiResponse)
    (i : Nat) (v : Validator)
    (hok : r.ok = true) (hjson : r.json = Except.ok (some d))
    (h : i < d.data.length) (hr : i < (rowsFrom 0 d.data).length)
    (hv : d.data.get ⟨i, h⟩ = v) (hw : v.website = none) :
    Home r = successView d ∧
    (rowsFrom 0 d.data).get ⟨i, hr⟩ = validatorRow i v ∧
    (validatorRow i v).kids[2]? =
      some (.elem "td" []
        [.elem "span" [("className", "no-website")] [.text "N/A"]]) ∧
    hasTag 6 "a" (websiteCell v.website) = false := by
  refine ⟨by simp [Home, getData, hok, hjson, renderOutcome], ?_, ?_, ?_⟩
  · have hrw := rowsFrom_get d.data 0 i h hr
    rw [Nat.zero_add, hv] at hrw
    exact hrw
  · have hcell : websiteCell v.website =
        .elem "span" [("className", "no-website")] [.text "N/A"] := by
      rw [hw]
      rfl
    simp [validatorRow, Html.kids, hcell]
  · rw [hw]
    rfl

/-- Witness for C8 at a payload whose validator has a null website. -/
theorem null_website_renders_na_witness :
    Home naOkResponse = successView naPayload ∧
    (rowsFrom 0 naPayload.data).get ⟨0, by decide⟩ =
      validatorRow 0 naValidator ∧
    (validatorRow 0 naValidator).kids[2]? =
      some (.elem "td" []
        [.elem "span" [("className", "no-website")] [.text "N/A"]]) ∧
    hasTag 6 "a" (websiteCell naValidator.website) = false :=
  null_website_renders_na naOkResponse naPayload 0 naValidator rfl rfl
    (by decide) (by decide) rfl rfl

/-- C10: on a successful response, a validator whose `website` is present
but the empty string also gets the non-link `N/A` placeholder, not a link
with an empty href — the renderer branches on truthiness of the value, not
on it being null. -/
theorem empty_website_renders_na (r : Response) (d : ApiResponse)
    (i : Nat) (v : Validator)
    (hok : r.ok = true) (hjson : r.json = Except.ok (some d))
    (h : i < d.data.length) (hr : i < (rowsFrom 0 d.data).length)
    (hv : d.data.get ⟨i, h⟩ = v) (hw : v.website = some "") :
    Home r = successView d ∧
    (rowsFrom 0 d.data).get ⟨i, hr⟩ = validatorRow i v ∧
    (validatorRow i v).kids[2]? =
      some (.elem "td" []
        [.elem "span" [("className", "no-website")] [.text "N/A"]]) ∧
    hasTag 6 "a" (websiteCell v.website) = false := by
  refine ⟨by simp [Home, getData, hok, hjson, renderOutcome], ?_, ?_, ?_⟩
  · have hrw := rowsFrom_get d.data 0 i h hr
    rw [Nat.zero_add, hv] at hrw
    exact hrw
  · have hcell : websiteCell v.website =
        .elem "span" [("className", "no-website")] [.text "N/A"] := by
      rw [hw]
      rfl
    simp [validatorRow, Html.kids, hcell]
  · rw [hw]
    rfl

/-- Witness for C10 at a payload whose validator has an empty-string
website. -/
theorem empty_website_renders_na_witness :
    Home emptyWebOkResponse = successView emptyWebPayload ∧
    (rowsFrom 0 emptyWebPayload.data).get ⟨0, by decide⟩ =
      validatorRow 0 emptyWebValidator ∧
    (validatorRow 0 emptyWebValidator).kids[2]? =
      some (.elem "td" []
        [.elem "span" [("className", "no-website")] [.text "N/A"]]) ∧
    hasTag 6 "a" (websiteCell emptyWebValidator.website) = false :=
  empty_website_renders_na emptyWebOkResponse emptyWebPayload 0
    emptyWebValidator rfl rfl (by decide) (by decide) rfl rfl

end Leaderboard
